import Mathlib

/-
Verification of the HourPercentClock repository's core logic.

The repository holds two near-duplicate PySide6 desktop-clock scripts,
`HourPercentClock_en.py` (English edition) and
`NEW_qt_hour_percent_clock_release.py` (Chinese release edition).  The
computational core of both is the pure function `compute_time_stats`,
which maps a wall-clock timestamp and a birthdate to hour/day elapsed
percentages, an elapsed-day count and a next-hundred-days milestone,
plus the config loader `load_birthdate_from_config`.

Embedding choices:
* Python ints are `ℤ` (arbitrary precision); the float expressions of
  the percentage computations are modelled over `ℚ` (for the reachable
  values — day counts up to 3 652 059 and microsecond fractions — the
  double-precision expressions in the source are exact or round to the
  same `ceil`, so `ℚ` is faithful).
* `datetime.date` subtraction and ordering follow CPython: subtraction
  of proleptic-Gregorian ordinals (`date.toordinal`, `_ymd2ord`),
  field-wise lexicographic comparison.
* `datetime.now()` is an explicit input (a `PyDateTime` record), since
  the calculator is a pure function of the clock reading it takes.
* JSON values read from the config file are modelled by `JsonValue`;
  following Python semantics, `isinstance(x, int)` is true for both
  ints and bools, and a bool used as a `date` constructor argument is
  coerced via `__index__` to 1 or 0.
-/

/-- Leap-year test, translated from CPython `datetime._is_leap`:
`year % 4 == 0 and (year % 100 != 0 or year % 400 == 0)`. -/
def isLeapYear (y : ℕ) : Bool :=
  y % 4 == 0 && (y % 100 != 0 || y % 400 == 0)

/-- Days in a month, translated from CPython `datetime._days_in_month`
(table `_DAYS_IN_MONTH` plus the February leap adjustment). -/
def daysInMonth (y m : ℕ) : ℕ :=
  match m with
  | 2 => if isLeapYear y then 29 else 28
  | 4 => 30
  | 6 => 30
  | 9 => 30
  | 11 => 30
  | _ => 31

/-- Days before January 1 of year `y` in the proleptic Gregorian
calendar, translated from CPython `datetime._days_before_year`. -/
def daysBeforeYear (y : ℕ) : ℕ :=
  let p := y - 1
  365 * p + p / 4 - p / 100 + p / 400

/-- Days in year `y` preceding the first of month `m`, translated from
CPython `datetime._days_before_month` (table `_DAYS_BEFORE_MONTH` plus
the leap adjustment for months after February). -/
def daysBeforeMonth (y m : ℕ) : ℕ :=
  let base : ℕ :=
    match m with
    | 1 => 0
    | 2 => 31
    | 3 => 59
    | 4 => 90
    | 5 => 120
    | 6 => 151
    | 7 => 181
    | 8 => 212
    | 9 => 243
    | 10 => 273
    | 11 => 304
    | _ => 334
  base + (if 2 < m ∧ isLeapYear y then 1 else 0)

/-- Calendar date (year, month, day), the model of Python
`datetime.date`.  Validity (year in 1..9999, month in 1..12, day in
range for the month) is checked where the Python constructor checks it,
in `isValidDate`. -/
structure Date where
  year : ℕ
  month : ℕ
  day : ℕ
deriving DecidableEq, Repr

/-- Proleptic Gregorian ordinal of a date (day 1 is 0001-01-01),
translated from CPython `datetime._ymd2ord`:
`days_before_year(y) + days_before_month(y, m) + d`. -/
def Date.toOrdinal (dt : Date) : ℕ :=
  daysBeforeYear dt.year + daysBeforeMonth dt.year dt.month + dt.day

/-- Day difference `(a - b).days` of two Python dates: difference of
their proleptic Gregorian ordinals. -/
def dateSubDays (a b : Date) : ℤ :=
  (a.toOrdinal : ℤ) - (b.toOrdinal : ℤ)

/-- Date comparison `a <= b` of Python dates: field-wise lexicographic
comparison on (year, month, day), as in CPython `date.__le__`. -/
def dateLe (a b : Date) : Bool :=
  decide (a.year < b.year ∨ (a.year = b.year ∧
    (a.month < b.month ∨ (a.month = b.month ∧ a.day ≤ b.day))))

/-- Wall-clock reading `datetime.now()`: a calendar date plus
hour/minute/second/microsecond components.  The components of a real
reading satisfy `hour ≤ 23`, `minute ≤ 59`, `second ≤ 59`,
`microsecond < 1000000`; the calculator does not check this, so the
bounds appear as hypotheses only where a claim needs them. -/
structure PyDateTime where
  date : Date
  hour : ℕ
  minute : ℕ
  second : ℕ
  microsecond : ℕ
deriving DecidableEq, Repr

/-- Result record of `compute_time_stats`: the six-element tuple
`(now, hour_pct, day_pct, days_alive, next_hundred, days_to_next)`. -/
structure TimeStats where
  now : PyDateTime
  hour_pct : ℚ
  day_pct : ℚ
  days_alive : ℤ
  next_hundred : ℤ
  days_to_next : ℤ
deriving DecidableEq, Repr

/-- Core calculator of `HourPercentClock_en.py` (lines 62-97),
translated statement by statement.  Python's reassignment
`if days_alive < 0: days_alive = 0` becomes the conditional binding of
`days_alive` from `days_alive0`. -/
def compute_time_stats (now : PyDateTime) (birthdate : Date) : TimeStats :=
  let sec_in_hour : ℚ :=
    (now.minute : ℚ) * 60 + (now.second : ℚ) + (now.microsecond : ℚ) / 1000000
  let hour_pct : ℚ := sec_in_hour / 3600 * 100
  let sec_in_day : ℚ :=
    (now.hour : ℚ) * 3600 + (now.minute : ℚ) * 60 + (now.second : ℚ) +
      (now.microsecond : ℚ) / 1000000
  let day_pct : ℚ := sec_in_day / 86400 * 100
  let days_alive0 : ℤ := dateSubDays now.date birthdate
  let days_alive : ℤ := if days_alive0 < 0 then 0 else days_alive0
  let next_hundred : ℤ :=
    if days_alive = 0 then 100
    else
      let n : ℤ := ⌈(days_alive : ℚ) / 100⌉ * 100
      if n = days_alive then n + 100 else n
  let days_to_next : ℤ := max 0 (next_hundred - days_alive)
  ⟨now, hour_pct, day_pct, days_alive, next_hundred, days_to_next⟩

/-- Core calculator of `NEW_qt_hour_percent_clock_release.py`
(lines 67-106), translated statement by statement.  The source divides
by the float literals `3600.0` and `86400.0`, which over `ℚ` coincide
with the integers used in the English edition. -/
def compute_time_stats_release (now : PyDateTime) (birthdate : Date) : TimeStats :=
  let sec_in_hour : ℚ :=
    (now.minute : ℚ) * 60 + (now.second : ℚ) + (now.microsecond : ℚ) / 1000000
  let hour_pct : ℚ := sec_in_hour / 3600 * 100
  let sec_in_day : ℚ :=
    (now.hour : ℚ) * 3600 + (now.minute : ℚ) * 60 + (now.second : ℚ) +
      (now.microsecond : ℚ) / 1000000
  let day_pct : ℚ := sec_in_day / 86400 * 100
  let days_alive0 : ℤ := dateSubDays now.date birthdate
  let days_alive : ℤ := if days_alive0 < 0 then 0 else days_alive0
  let next_hundred : ℤ :=
    if days_alive = 0 then 100
    else
      let n : ℤ := ⌈(days_alive : ℚ) / 100⌉ * 100
      if n = days_alive then n + 100 else n
  let days_to_next : ℤ := max 0 (next_hundred - days_alive)
  ⟨now, hour_pct, day_pct, days_alive, next_hundred, days_to_next⟩

/-- Milestone branch of `compute_time_stats` (lines 87-93 of the
English edition) as a function of the already-clamped day count; equal
by definitional unfolding to the `next_hundred` field and used to share
lemmas between claims. -/
def nextHundredOf (d : ℤ) : ℤ :=
  if d = 0 then 100
  else
    let n : ℤ := ⌈(d : ℚ) / 100⌉ * 100
    if n = d then n + 100 else n

/-- Value of one of the keys `year`/`month`/`day` as produced by
`json.load`: a JSON integer, a JSON boolean (Python `bool`, which
`isinstance(x, int)` accepts), or anything else (string, float, null,
array, object — all of which fail the `isinstance` check). -/
inductive JsonValue where
  | int (n : ℤ)
  | bool (b : Bool)
  | other
deriving DecidableEq, Repr

/-- Successfully parsed top-level JSON object of the config file: the
values bound to the keys `year`, `month`, `day` (`none` when the key is
missing, so `data.get` returns Python `None`). -/
structure ConfigData where
  year : Option JsonValue
  month : Option JsonValue
  day : Option JsonValue
deriving DecidableEq, Repr

/-- Model of `isinstance(x, int)` followed by use as an integer
argument of `date(...)`: Python ints pass as themselves; Python bools
pass the `isinstance` check (bool is a subclass of int) and are coerced
via `__index__` to 1 or 0; a missing key (`None`) and every other JSON
value fail the check. -/
def asPyInt : Option JsonValue → Option ℤ
  | some (JsonValue.int n) => some n
  | some (JsonValue.bool b) => some (if b then 1 else 0)
  | _ => none

/-- Validity check of the Python `date(y, m, d)` constructor
(CPython `_check_date_fields`): `MINYEAR = 1 ≤ y ≤ 9999 = MAXYEAR`,
`1 ≤ m ≤ 12`, `1 ≤ d ≤ days_in_month(y, m)`.  On invalid fields the
constructor raises; in `load_birthdate_from_config` that exception is
caught and turned into `None`. -/
def isValidDate (y m d : ℤ) : Bool :=
  1 ≤ y && y ≤ 9999 && 1 ≤ m && m ≤ 12 && 1 ≤ d &&
    d ≤ (daysInMonth y.toNat m.toNat : ℤ)

/-- Config loader of `HourPercentClock_en.py` (lines 27-43).  The file
read and `json.load` step is abstracted as the input `cfg`: `none` when
the file is absent, unreadable, not valid JSON, or not a JSON object
(every such failure lands in the `except` clause or the existence
check); `some data` when a JSON object was parsed.  `today` stands for
`date.today()` at call time.  The body mirrors the source: fetch the
three keys, require `isinstance(x, int)` of each, construct the date
(an invalid one raises, caught as `None`), reject a date after
today. -/
def load_birthdate_from_config (cfg : Option ConfigData) (today : Date) :
    Option Date :=
  match cfg with
  | none => none
  | some data =>
    match asPyInt data.year, asPyInt data.month, asPyInt data.day with
    | some y, some m, some d =>
      if isValidDate y m d then
        let bd : Date := ⟨y.toNat, m.toNat, d.toNat⟩
        if dateLe bd today then some bd else none
      else none
    | _, _, _ => none

/-- Predicate of the specification's words "bound to a non-integer
value": true exactly on JSON integers (a JSON boolean is not an
integer in the sense of the spec's data shape). -/
def isIntValue : JsonValue → Bool
  | JsonValue.int _ => true
  | _ => false

/-- Sample clock reading 2024-03-01 12:30:00.000000 (scenario 2 of the
specification's test list). -/
def sampleNow : PyDateTime := ⟨⟨2024, 3, 1⟩, 12, 30, 0, 0⟩

/-- Sample birthdate 2024-02-01 (29 days before `sampleNow`). -/
def sampleBirth : Date := ⟨2024, 2, 1⟩

-- Sanity checks of the calendar model against known ordinals:
-- date(1,1,1).toordinal() = 1, date(2024,3,1).toordinal() = 738946.
example : Date.toOrdinal ⟨1, 1, 1⟩ = 1 := by decide
example : Date.toOrdinal ⟨2024, 3, 1⟩ = 738946 := by decide
example : dateSubDays ⟨2024, 3, 1⟩ ⟨2024, 2, 1⟩ = 29 := by decide

/-! ### Helper lemmas -/

/-- Unfolding of the `days_alive` field: the clamped ordinal
difference. -/
theorem compute_days_alive_def (now : PyDateTime) (bd : Date) :
    (compute_time_stats now bd).days_alive =
      if dateSubDays now.date bd < 0 then 0 else dateSubDays now.date bd := rfl

/-- The clamped day count is never negative. -/
theorem compute_days_alive_nonneg (now : PyDateTime) (bd : Date) :
    0 ≤ (compute_time_stats now bd).days_alive := by
  rw [compute_days_alive_def]
  split_ifs with h <;> omega

/-- Unfolding of the `next_hundred` field through `nextHundredOf`. -/
theorem compute_next_hundred_def (now : PyDateTime) (bd : Date) :
    (compute_time_stats now bd).next_hundred =
      nextHundredOf ((compute_time_stats now bd).days_alive) := rfl

/-- Unfolding of the `days_to_next` field. -/
theorem compute_days_to_next_def (now : PyDateTime) (bd : Date) :
    (compute_time_stats now bd).days_to_next =
      max 0 ((compute_time_stats now bd).next_hundred -
        (compute_time_stats now bd).days_alive) := rfl

/-- An integer is at most one hundred times the ceiling of its
hundredth. -/
theorem int_le_ceil_hundred (d : ℤ) : d ≤ ⌈(d : ℚ) / 100⌉ * 100 := by
  have h := Int.le_ceil ((d : ℚ) / 100)
  rw [div_le_iff₀ (by norm_num : (0 : ℚ) < 100)] at h
  exact_mod_cast h

/-- One hundred times the ceiling of an integer's hundredth is less
than the integer plus one hundred. -/
theorem ceil_hundred_lt (d : ℤ) : ⌈(d : ℚ) / 100⌉ * 100 < d + 100 := by
  have h := Int.ceil_lt_add_one ((d : ℚ) / 100)
  have h3 : (⌈(d : ℚ) / 100⌉ : ℚ) * 100 < ((d : ℚ) / 100 + 1) * 100 :=
    mul_lt_mul_of_pos_right h (by norm_num)
  have h4 : ((d : ℚ) / 100 + 1) * 100 = (d : ℚ) + 100 := by field_simp
  rw [h4] at h3
  exact_mod_cast h3

/-- On a multiple of one hundred, rounding up to a multiple of one
hundred is the identity. -/
theorem ceil_hundred_of_dvd {d : ℤ} (h : (100 : ℤ) ∣ d) :
    ⌈(d : ℚ) / 100⌉ * 100 = d := by
  obtain ⟨k, rfl⟩ := h
  have h1 : ((100 * k : ℤ) : ℚ) / 100 = ((k : ℤ) : ℚ) := by
    push_cast
    exact mul_div_cancel_left₀ _ (by norm_num)
  rw [h1, Int.ceil_intCast]
  ring

/-- The milestone is always a multiple of one hundred. -/
theorem nextHundredOf_dvd (d : ℤ) : (100 : ℤ) ∣ nextHundredOf d := by
  simp only [nextHundredOf]
  split_ifs with h1 h2
  · norm_num
  · exact ⟨⌈(d : ℚ) / 100⌉ + 1, by ring⟩
  · exact ⟨⌈(d : ℚ) / 100⌉, by ring⟩

/-- The milestone strictly exceeds any non-negative day count. -/
theorem lt_nextHundredOf {d : ℤ} (_hd : 0 ≤ d) : d < nextHundredOf d := by
  simp only [nextHundredOf]
  split_ifs with h1 h2
  · omega
  · omega
  · have h3 := int_le_ceil_hundred d
    omega

/-- The milestone is at most one hundred above the day count. -/
theorem nextHundredOf_le {d : ℤ} (_hd : 0 ≤ d) : nextHundredOf d ≤ d + 100 := by
  simp only [nextHundredOf]
  split_ifs with h1 h2
  · omega
  · omega
  · have h3 := ceil_hundred_lt d
    omega

/-- On a positive multiple of one hundred the milestone advances a full
hundred. -/
theorem nextHundredOf_of_pos_dvd {d : ℤ} (hd : 0 < d) (h : (100 : ℤ) ∣ d) :
    nextHundredOf d = d + 100 := by
  have he := ceil_hundred_of_dvd h
  simp only [nextHundredOf]
  rw [if_neg (by omega : ¬ d = 0), if_pos he, he]

/-- On a positive non-multiple of one hundred the milestone is the
rounded-up value itself. -/
theorem nextHundredOf_of_not_dvd {d : ℤ} (hd : 0 < d)
    (h : ¬ (100 : ℤ) ∣ d) : nextHundredOf d = ⌈(d : ℚ) / 100⌉ * 100 := by
  simp only [nextHundredOf]
  have hne : ¬ ⌈(d : ℚ) / 100⌉ * 100 = d := fun he => h ⟨⌈(d : ℚ) / 100⌉, by omega⟩
  rw [if_neg (by omega : ¬ d = 0), if_neg hne]

/-! ### Claim theorems -/

/-- C1: for every birthdate and timestamp, `next_hundred` is a multiple
of 100 and strictly greater than `days_alive`; it equals 100 when
`days_alive = 0`; for positive `days_alive` not a multiple of 100 it is
`days_alive` rounded up to the nearest multiple of 100 (a multiple of
100 in the interval `[days_alive, days_alive + 100)`), and for positive
`days_alive` that is an exact multiple of 100 it is
`days_alive + 100`. -/
theorem next_hundred_milestone (now : PyDateTime) (bd : Date) :
    (100 : ℤ) ∣ (compute_time_stats now bd).next_hundred ∧
    (compute_time_stats now bd).days_alive <
      (compute_time_stats now bd).next_hundred ∧
    ((compute_time_stats now bd).days_alive = 0 →
      (compute_time_stats now bd).next_hundred = 100) ∧
    (0 < (compute_time_stats now bd).days_alive →
      ¬ (100 : ℤ) ∣ (compute_time_stats now bd).days_alive →
      (compute_time_stats now bd).days_alive ≤
          (compute_time_stats now bd).next_hundred ∧
        (compute_time_stats now bd).next_hundred <
          (compute_time_stats now bd).days_alive + 100) ∧
    (0 < (compute_time_stats now bd).days_alive →
      (100 : ℤ) ∣ (compute_time_stats now bd).days_alive →
      (compute_time_stats now bd).next_hundred =
        (compute_time_stats now bd).days_alive + 100) := by
  have hd0 := compute_days_alive_nonneg now bd
  rw [compute_next_hundred_def]
  refine ⟨nextHundredOf_dvd _, lt_nextHundredOf hd0, ?_, ?_, ?_⟩
  · intro h0
    rw [h0]
    simp [nextHundredOf]
  · intro hpos hndvd
    rw [nextHundredOf_of_not_dvd hpos hndvd]
    exact ⟨int_le_ceil_hundred _, ceil_hundred_lt _⟩
  · intro hpos hdvd
    exact nextHundredOf_of_pos_dvd hpos hdvd

/-- C1 witness: the milestone properties evaluated at the concrete
reading 2024-03-01 12:30:00 with birthdate 2024-02-01. -/
theorem next_hundred_milestone_witness :
    (100 : ℤ) ∣ (compute_time_stats sampleNow sampleBirth).next_hundred ∧
    (compute_time_stats sampleNow sampleBirth).days_alive <
      (compute_time_stats sampleNow sampleBirth).next_hundred ∧
    ((compute_time_stats sampleNow sampleBirth).days_alive = 0 →
      (compute_time_stats sampleNow sampleBirth).next_hundred = 100) ∧
    (0 < (compute_time_stats sampleNow sampleBirth).days_alive →
      ¬ (100 : ℤ) ∣ (compute_time_stats sampleNow sampleBirth).days_alive →
      (compute_time_stats sampleNow sampleBirth).days_alive ≤
          (compute_time_stats sampleNow sampleBirth).next_hundred ∧
        (compute_time_stats sampleNow sampleBirth).next_hundred <
          (compute_time_stats sampleNow sampleBirth).days_alive + 100) ∧
    (0 < (compute_time_stats sampleNow sampleBirth).days_alive →
      (100 : ℤ) ∣ (compute_time_stats sampleNow sampleBirth).days_alive →
      (compute_time_stats sampleNow sampleBirth).next_hundred =
        (compute_time_stats sampleNow sampleBirth).days_alive + 100) :=
  next_hundred_milestone sampleNow sampleBirth

/-- C2: `days_alive` is the ordinal day difference between the
timestamp's calendar date and the birthdate, clamped below at zero, and
is therefore never negative. -/
theorem days_alive_clamped (now : PyDateTime) (bd : Date) :
    (compute_time_stats now bd).days_alive =
      max 0 (dateSubDays now.date bd) ∧
    0 ≤ (compute_time_stats now bd).days_alive := by
  refine ⟨?_, compute_days_alive_nonneg now bd⟩
  rw [compute_days_alive_def]
  rcases lt_or_le (dateSubDays now.date bd) 0 with h | h
  · rw [if_pos h, max_eq_left h.le]
  · rw [if_neg (not_lt.2 h), max_eq_right h]

/-- C3: the percentage fields are exactly the stated formulas over the
timestamp's components, with fractional seconds
`microsecond / 1000000`. -/
theorem pct_formulas (now : PyDateTime) (bd : Date) :
    (compute_time_stats now bd).hour_pct =
      ((now.minute : ℚ) * 60 + (now.second : ℚ) +
        (now.microsecond : ℚ) / 1000000) / 3600 * 100 ∧
    (compute_time_stats now bd).day_pct =
      ((now.hour : ℚ) * 3600 + (now.minute : ℚ) * 60 + (now.second : ℚ) +
        (now.microsecond : ℚ) / 1000000) / 86400 * 100 :=
  ⟨rfl, rfl⟩

/-- C4: for a valid clock reading (hour ≤ 23, minute ≤ 59, second ≤ 59,
microsecond < 1000000, so the fractional second lies in `[0, 1)`), both
percentages lie in `[0, 100)`. -/
theorem pct_range (now : PyDateTime) (bd : Date)
    (h1 : now.hour ≤ 23) (h2 : now.minute ≤ 59) (h3 : now.second ≤ 59)
    (h4 : now.microsecond < 1000000) :
    0 ≤ (compute_time_stats now bd).hour_pct ∧
    (compute_time_stats now bd).hour_pct < 100 ∧
    0 ≤ (compute_time_stats now bd).day_pct ∧
    (compute_time_stats now bd).day_pct < 100 := by
  have q1 : (now.hour : ℚ) ≤ 23 := by exact_mod_cast h1
  have q2 : (now.minute : ℚ) ≤ 59 := by exact_mod_cast h2
  have q3 : (now.second : ℚ) ≤ 59 := by exact_mod_cast h3
  have q4 : (now.microsecond : ℚ) < 1000000 := by exact_mod_cast h4
  have n1 : (0 : ℚ) ≤ (now.hour : ℚ) := Nat.cast_nonneg _
  have n2 : (0 : ℚ) ≤ (now.minute : ℚ) := Nat.cast_nonneg _
  have n3 : (0 : ℚ) ≤ (now.second : ℚ) := Nat.cast_nonneg _
  have n4 : (0 : ℚ) ≤ (now.microsecond : ℚ) := Nat.cast_nonneg _
  have hμ : (now.microsecond : ℚ) / 1000000 < 1 := by
    rw [div_lt_one (by norm_num : (0 : ℚ) < 1000000)]
    exact q4
  have hμ0 : (0 : ℚ) ≤ (now.microsecond : ℚ) / 1000000 := by positivity
  refine ⟨?_, ?_, ?_, ?_⟩
  · show (0 : ℚ) ≤ ((now.minute : ℚ) * 60 + (now.second : ℚ) +
      (now.microsecond : ℚ) / 1000000) / 3600 * 100
    positivity
  · show ((now.minute : ℚ) * 60 + (now.second : ℚ) +
      (now.microsecond : ℚ) / 1000000) / 3600 * 100 < 100
    rw [div_mul_eq_mul_div, div_lt_iff₀ (by norm_num : (0 : ℚ) < 3600)]
    nlinarith
  · show (0 : ℚ) ≤ ((now.hour : ℚ) * 3600 + (now.minute : ℚ) * 60 +
      (now.second : ℚ) + (now.microsecond : ℚ) / 1000000) / 86400 * 100
    positivity
  · show ((now.hour : ℚ) * 3600 + (now.minute : ℚ) * 60 + (now.second : ℚ) +
      (now.microsecond : ℚ) / 1000000) / 86400 * 100 < 100
    rw [div_mul_eq_mul_div, div_lt_iff₀ (by norm_num : (0 : ℚ) < 86400)]
    nlinarith

/-- C4 witness: the range bounds at the concrete reading
2024-03-01 12:30:00.000000. -/
theorem pct_range_witness :
    0 ≤ (compute_time_stats sampleNow sampleBirth).hour_pct ∧
    (compute_time_stats sampleNow sampleBirth).hour_pct < 100 ∧
    0 ≤ (compute_time_stats sampleNow sampleBirth).day_pct ∧
    (compute_time_stats sampleNow sampleBirth).day_pct < 100 :=
  pct_range sampleNow sampleBirth (by decide) (by decide) (by decide)
    (by decide)

/-- C5: `days_to_next` is `next_hundred - days_alive` floored at zero,
and is never negative. -/
theorem days_to_next_floor (now : PyDateTime) (bd : Date) :
    (compute_time_stats now bd).days_to_next =
      max 0 ((compute_time_stats now bd).next_hundred -
        (compute_time_stats now bd).days_alive) ∧
    0 ≤ (compute_time_stats now bd).days_to_next :=
  ⟨rfl, le_max_left 0 _⟩

/-- C6: the calculator is total — for every clock reading and every
birthdate, including future birthdates and dates arbitrarily far in the
past, it yields a six-field `TimeStats` record carrying the input
timestamp and a non-negative day count.  In this embedding the
function's purity (no exceptions, no I/O, no side effects) is
witnessed by its being a plain total function into `TimeStats`. -/
theorem compute_time_stats_total (now : PyDateTime) (bd : Date) :
    ∃ st : TimeStats, compute_time_stats now bd = st ∧ st.now = now ∧
      0 ≤ st.days_alive :=
  ⟨compute_time_stats now bd, rfl, rfl, compute_days_alive_nonneg now bd⟩

/-- C7: the calculator is a deterministic pure function — equal
timestamp and birthdate inputs give equal six-field outputs. -/
theorem compute_time_stats_deterministic (n1 n2 : PyDateTime)
    (b1 b2 : Date) (hn : n1 = n2) (hb : b1 = b2) :
    compute_time_stats n1 b1 = compute_time_stats n2 b2 := by
  rw [hn, hb]

/-- C7 witness: determinism at the concrete sample inputs. -/
theorem compute_time_stats_deterministic_witness :
    sampleNow = sampleNow ∧ sampleBirth = sampleBirth ∧
    compute_time_stats sampleNow sampleBirth =
      compute_time_stats sampleNow sampleBirth :=
  ⟨rfl, rfl,
    compute_time_stats_deterministic sampleNow sampleNow sampleBirth
      sampleBirth rfl rfl⟩

/-- C9: the English edition and the Chinese release edition compute
identical six-field results on every input. -/
theorem editions_agree :
    ∀ (now : PyDateTime) (bd : Date),
      compute_time_stats now bd = compute_time_stats_release now bd :=
  fun _ _ => rfl

/-- C10: `days_to_next` always lies between 1 and 100 inclusive — a
milestone is never zero days away and never more than one hundred. -/
theorem days_to_next_bounds (now : PyDateTime) (bd : Date) :
    1 ≤ (compute_time_stats now bd).days_to_next ∧
    (compute_time_stats now bd).days_to_next ≤ 100 := by
  have hd0 := compute_days_alive_nonneg now bd
  have h1 := lt_nextHundredOf hd0
  have h2 := nextHundredOf_le hd0
  rw [compute_days_to_next_def, compute_next_hundred_def]
  rw [max_eq_right (by omega :
    (0 : ℤ) ≤ nextHundredOf ((compute_time_stats now bd).days_alive) -
      (compute_time_stats now bd).days_alive)]
  omega

/-- C8 counterexample: the config object `{"year": true, "month": 1,
"day": 1}` binds `year` to a JSON boolean — not an integer — yet the
loader does not return `None`: Python's `isinstance(True, int)` holds
(bool is a subclass of int), `True` is coerced to 1, and the loader
returns the date 0001-01-01. -/
theorem load_birthdate_counterexample :
    isIntValue (JsonValue.bool true) = false ∧
    load_birthdate_from_config
        (some ⟨some (JsonValue.bool true), some (JsonValue.int 1),
          some (JsonValue.int 1)⟩) ⟨2024, 1, 1⟩ =
      some ⟨1, 1, 1⟩ := by
  constructor
  · rfl
  · rfl

/-- C8 amended: the loader returns the parsed date exactly when a JSON
object was read, each of the keys `year`/`month`/`day` is bound to a
value passing Python's integer check (an integer or a boolean, the
latter coerced to 1/0), the three values form a valid calendar date,
and that date is not after today; in every other case — file absent,
unreadable or malformed (`cfg = none`), a key missing or bound to a
value that is neither integer nor boolean, an invalid calendar date, or
a future date — it returns `None`. -/
theorem load_birthdate_some_iff (cfg : Option ConfigData) (today : Date)
    (bd : Date) :
    load_birthdate_from_config cfg today = some bd ↔
      ∃ data y m d, cfg = some data ∧
        asPyInt data.year = some y ∧ asPyInt data.month = some m ∧
        asPyInt data.day = some d ∧ isValidDate y m d = true ∧
        bd = ⟨y.toNat, m.toNat, d.toNat⟩ ∧ dateLe bd today = true := by
  cases cfg with
  | none => simp [load_birthdate_from_config]
  | some data =>
    obtain ⟨yv, mv, dv⟩ := data
    simp only [load_birthdate_from_config, Option.some.injEq]
    rcases hy : asPyInt yv with _ | y <;>
      rcases hm : asPyInt mv with _ | m <;>
        rcases hd : asPyInt dv with _ | d <;>
          simp_all
    intro hv
    constructor
    · rintro ⟨hle, rfl⟩
      exact ⟨rfl, hle⟩
    · rintro ⟨rfl, hle⟩
      exact ⟨hle, rfl⟩

/-! ### Concrete scenario checks (test list of the specification) -/

example : (compute_time_stats sampleNow sampleBirth).days_alive = 29 := by decide

example : (compute_time_stats sampleNow sampleBirth).next_hundred = 100 := by
  have h : (compute_time_stats sampleNow sampleBirth).days_alive = 29 := by decide
  have hc : ⌈(29 : ℚ) / 100⌉ = 1 := by rw [Int.ceil_eq_iff] ; norm_num
  rw [compute_next_hundred_def, h]
  simp [nextHundredOf, hc]

example : (compute_time_stats sampleNow sampleBirth).days_to_next = 71 := by
  have h : (compute_time_stats sampleNow sampleBirth).days_alive = 29 := by decide
  have hn : (compute_time_stats sampleNow sampleBirth).next_hundred = 100 := by
    have hc : ⌈(29 : ℚ) / 100⌉ = 1 := by rw [Int.ceil_eq_iff] ; norm_num
    rw [compute_next_hundred_def, h]
    simp [nextHundredOf, hc]
  rw [compute_days_to_next_def, h, hn]
  rfl

example : (compute_time_stats sampleNow sampleBirth).hour_pct = 50 := by
  norm_num [compute_time_stats, sampleNow]

example : (compute_time_stats sampleNow sampleBirth).day_pct = 625 / 12 := by
  norm_num [compute_time_stats, sampleNow]

example : (compute_time_stats sampleNow ⟨2023, 11, 22⟩).days_alive = 100 := by
  decide

example : (compute_time_stats sampleNow ⟨2023, 11, 22⟩).next_hundred = 200 := by
  have h : (compute_time_stats sampleNow ⟨2023, 11, 22⟩).days_alive = 100 := by
    decide
  have hc : ⌈(100 : ℚ) / 100⌉ = 1 := by norm_num
  rw [compute_next_hundred_def, h]
  simp [nextHundredOf, hc]

example : (compute_time_stats sampleNow ⟨2025, 1, 1⟩).days_alive = 0 := by decide

example : (compute_time_stats sampleNow ⟨2025, 1, 1⟩).next_hundred = 100 := by
  have h : (compute_time_stats sampleNow ⟨2025, 1, 1⟩).days_alive = 0 := by decide
  rw [compute_next_hundred_def, h]
  simp [nextHundredOf]

example : load_birthdate_from_config
    (some ⟨some (JsonValue.int 2999), some (JsonValue.int 1),
      some (JsonValue.int 1)⟩) ⟨2024, 3, 1⟩ = none := by decide

example : load_birthdate_from_config
    (some ⟨some JsonValue.other, some (JsonValue.int 1),
      some (JsonValue.int 1)⟩) ⟨2024, 3, 1⟩ = none := by decide

example : load_birthdate_from_config
    (some ⟨some (JsonValue.int 2023), some (JsonValue.int 2),
      some (JsonValue.int 29)⟩) ⟨2024, 3, 1⟩ = none := by decide

example : load_birthdate_from_config
    (some ⟨some (JsonValue.int 2001), some (JsonValue.int 11),
      some (JsonValue.int 14)⟩) ⟨2024, 3, 1⟩ = some ⟨2001, 11, 14⟩ := by decide
